import Mathlib

/-!
Shallow embedding of src/internal/vault/vault.go (package vault):
a key-value secret store on the Hashicorp Vault K/V backend, consisting of

* the foreground key operations Store.Get / Store.Create / Store.Delete,
  gated by the connection (client != nil) and the sealed flag;
* the background availability monitor Store.checkStatus;
* the background token renewal engine Store.renewAuthToken, modelled as a
  small-step state machine whose every step consumes one observation of the
  shared environment (cancellation signal, sealed flag, backend responses);
* the entry points Store.Authenticate and Store.authenticate.

Durations (TTLs, retry delays, poll intervals) are modelled as natural
numbers of seconds. Transport/protocol errors of the Vault client are
modelled as opaque error codes (Nat). The Vault client collaborator is
modelled by its response values, per call site; the operations additionally
record the backend calls they issue and the log events they emit, so that
claims about "no backend I/O" and about logging are statable.
-/

namespace Vault

/-- Equality of Except values is decidable when it is on both sides. -/
instance {ε α : Type} [DecidableEq ε] [DecidableEq α] : DecidableEq (Except ε α) := fun x y =>
  match x, y with
  | Except.error a, Except.error b =>
      if h : a = b then Decidable.isTrue (by simp [h]) else Decidable.isFalse (by simp [h])
  | Except.error _, Except.ok _ => Decidable.isFalse (by simp)
  | Except.ok _, Except.error _ => Decidable.isFalse (by simp)
  | Except.ok a, Except.ok b =>
      if h : a = b then Decidable.isTrue (by simp [h]) else Decidable.isFalse (by simp [h])

/-- A value inside a Vault K/V entry (Go: interface value in
entry.Data): a string, the nil interface value, or some non-string,
non-nil value. -/
inductive VVal where
  | str (s : String)
  | nullv
  | other
  deriving DecidableEq

/-- A K/V entry: the Data field of a Vault secret, a finite map from
field names to values, as an association list. -/
abbrev Entry := List (String × VVal)

/-- First-match association-list lookup (Go map indexing). -/
def lookupA {β : Type} : List (String × β) → String → Option β
  | [], _ => none
  | (k, v) :: rest, key => if k = key then some v else lookupA rest key

/-- The errors the key operations can return:
noConnection is errNoConnection, sealedForbidden is errSealed
(HTTP 403 "key store is sealed"), keyNotFound is kes.ErrKeyNotFound,
keyExists is kes.ErrKeyExists, noValue is
"vault: K/V entry does not contain any value", badFormat is
"vault: invalid K/V entry format", transport is an opaque error coming
from the Vault client. -/
inductive VErr where
  | noConnection
  | sealedForbidden
  | keyNotFound
  | keyExists
  | noValue
  | badFormat
  | transport (code : Nat)
  deriving DecidableEq

/-- A log event emitted through Store.log / Store.logf: either a plain
message (no path context) or a message carrying the entry path. -/
inductive LogEvent where
  | plain (msg : String)
  | withPath (p : String) (msg : String)
  deriving DecidableEq

/-- A call issued to the Vault client by a key operation. -/
inductive BackendCall where
  | readPath (p : String)
  | writePath (p : String) (e : Entry)
  | deletePath (p : String)
  deriving DecidableEq

/-- The K/V backend as seen through the Vault client: the stored entries
per path, plus injected transport failures per path for read, write and
delete calls (error codes). -/
structure Backend where
  entries : List (String × Entry)
  readErrs : List (String × Nat)
  writeErrs : List (String × Nat)
  deleteErrs : List (String × Nat)
  deriving DecidableEq

/-- client.Logical().Read(p): a transport error, or no error together
with the entry when present (Vault returns (nil, nil) for an absent
entry). -/
def Backend.read (b : Backend) (p : String) : Except Nat (Option Entry) :=
  match lookupA b.readErrs p with
  | some e => Except.error e
  | none => Except.ok (lookupA b.entries p)

/-- client.Logical().Write(p, e): a transport error, or the updated
backend. -/
def Backend.write (b : Backend) (p : String) (e : Entry) : Except Nat Backend :=
  match lookupA b.writeErrs p with
  | some c => Except.error c
  | none => Except.ok { b with entries := (p, e) :: b.entries }

/-- client.Logical().Delete(p): a transport error, or the updated
backend; deleting an absent entry is not an error. -/
def Backend.delete (b : Backend) (p : String) : Except Nat Backend :=
  match lookupA b.deleteErrs p with
  | some c => Except.error c
  | none => Except.ok { b with entries := b.entries.filter (fun kv => kv.1 != p) }

/-- The store fields the key operations consult: whether Authenticate
installed a client (client != nil), the sealed flag, and the Location
used to derive entry paths. -/
structure Store where
  connected : Bool
  sealed : Bool
  location : String
  deriving DecidableEq

/-- The derived entry path: fmt.Sprintf of "/kv/", the Location and the
key. -/
def storePath (s : Store) (key : String) : String :=
  "/kv/" ++ s.location ++ "/" ++ key

/-- The observable outcome of one key operation: the returned value or
error, the backend after the call, the backend calls issued, and the log
events emitted. -/
structure OpOut (α : Type) where
  res : Except VErr α
  backend : Backend
  calls : List BackendCall
  logs : List LogEvent
  deriving DecidableEq

/-- Store.Get: connection and sealed gates, then one read at the derived
path, distinguishing transport error / absent entry / present entry, and
for a present entry the missing-field, nil-field, string and non-string
cases of entry.Data[key]. -/
def Store.Get (s : Store) (b : Backend) (key : String) : OpOut String :=
  if s.connected = false then
    { res := Except.error VErr.noConnection, backend := b, calls := [],
      logs := [LogEvent.plain "vault: no connection to vault server"] }
  else if s.sealed then
    { res := Except.error VErr.sealedForbidden, backend := b, calls := [], logs := [] }
  else
    let location := storePath s key
    match b.read location with
    | Except.error e =>
      { res := Except.error (VErr.transport e), backend := b,
        calls := [BackendCall.readPath location],
        logs := [LogEvent.withPath location "vault: failed to read: transport error"] }
    | Except.ok none =>
      { res := Except.error VErr.keyNotFound, backend := b,
        calls := [BackendCall.readPath location], logs := [] }
    | Except.ok (some entry) =>
      match lookupA entry key with
      | none =>
        { res := Except.error VErr.noValue, backend := b,
          calls := [BackendCall.readPath location],
          logs := [LogEvent.withPath location
            "vault: failed to read: entry exists but no secret key is present"] }
      | some VVal.nullv =>
        { res := Except.error VErr.noValue, backend := b,
          calls := [BackendCall.readPath location],
          logs := [LogEvent.withPath location
            "vault: failed to read: entry exists but no secret key is present"] }
      | some (VVal.str value) =>
        { res := Except.ok value, backend := b,
          calls := [BackendCall.readPath location], logs := [] }
      | some VVal.other =>
        { res := Except.error VErr.badFormat, backend := b,
          calls := [BackendCall.readPath location],
          logs := [LogEvent.withPath location "vault: failed to read: invalid K/V format"] }

/-- Store.Create: connection and sealed gates, then a read at the derived
path; a successful read with a non-nil secret fails with keyExists, a read
error is logged and propagated without writing, and otherwise the entry
mapping the key to the value is written at the path. -/
def Store.Create (s : Store) (b : Backend) (key value : String) : OpOut Unit :=
  if s.connected = false then
    { res := Except.error VErr.noConnection, backend := b, calls := [],
      logs := [LogEvent.plain "vault: no connection to vault server"] }
  else if s.sealed then
    { res := Except.error VErr.sealedForbidden, backend := b, calls := [], logs := [] }
  else
    let location := storePath s key
    match b.read location with
    | Except.ok (some _) =>
      { res := Except.error VErr.keyExists, backend := b,
        calls := [BackendCall.readPath location], logs := [] }
    | Except.error e =>
      { res := Except.error (VErr.transport e), backend := b,
        calls := [BackendCall.readPath location],
        logs := [LogEvent.withPath location "vault: failed to create: transport error"] }
    | Except.ok none =>
      match b.write location [(key, VVal.str value)] with
      | Except.error e =>
        { res := Except.error (VErr.transport e), backend := b,
          calls := [BackendCall.readPath location,
                    BackendCall.writePath location [(key, VVal.str value)]],
          logs := [LogEvent.withPath location "vault: failed to create: transport error"] }
      | Except.ok b2 =>
        { res := Except.ok (), backend := b2,
          calls := [BackendCall.readPath location,
                    BackendCall.writePath location [(key, VVal.str value)]],
          logs := [] }

/-- Store.Delete: connection and sealed gates, then one unconditional
delete at the derived path; a transport error is logged and returned. -/
def Store.Delete (s : Store) (b : Backend) (key : String) : OpOut Unit :=
  if s.connected = false then
    { res := Except.error VErr.noConnection, backend := b, calls := [],
      logs := [LogEvent.plain "vault: no connection to vault server"] }
  else if s.sealed then
    { res := Except.error VErr.sealedForbidden, backend := b, calls := [], logs := [] }
  else
    let location := storePath s key
    match b.delete location with
    | Except.error e =>
      { res := Except.error (VErr.transport e), backend := b,
        calls := [BackendCall.deletePath location],
        logs := [LogEvent.withPath location "vault: failed to delete: transport error"] }
    | Except.ok b2 =>
      { res := Except.ok (), backend := b2,
        calls := [BackendCall.deletePath location], logs := [] }

/-- The empty backend: no entries, no injected failures. -/
def emptyBackend : Backend :=
  { entries := [], readErrs := [], writeErrs := [], deleteErrs := [] }

/-! ## Token acquisition: Store.authenticate -/

/-- The secret returned by the approle login write, as the code consumes
it: the results of secret.TokenID() and secret.TokenTTL(), each of which
can fail with an error. -/
structure LoginSecret where
  tokenId : Except Nat String
  tokenTtl : Except Nat Nat
  deriving DecidableEq

/-- The (token, ttl, err) triple returned by Store.authenticate. -/
structure AuthTriple where
  token : String
  ttl : Nat
  err : Option Nat
  deriving DecidableEq

/-- Store.authenticate: performs the approle login write and extracts
token and TTL from the returned secret. As in the code, the named return
values start at their zero values ("" and 0) and are filled in
progressively, so an error or nil secret returns the values reached so
far; in particular a nil secret with a nil error returns
("", 0, nil error). -/
def authenticate (resp : Except Nat (Option LoginSecret)) : AuthTriple :=
  match resp with
  | Except.error e => { token := "", ttl := 0, err := some e }
  | Except.ok none => { token := "", ttl := 0, err := none }
  | Except.ok (some sec) =>
    match sec.tokenId with
    | Except.error e => { token := "", ttl := 0, err := some e }
    | Except.ok tok =>
      match sec.tokenTtl with
      | Except.error e => { token := tok, ttl := 0, err := some e }
      | Except.ok t => { token := tok, ttl := t, err := none }

/-! ## The token renewal engine: Store.renewAuthToken

The engine is modelled as a small-step machine. Each state is a wait or
decision point of the code; each step consumes one observation of the
environment (the cancellation signal, the sealed flag as written by the
monitor, and the backend responses available at this step) and emits the
actions performed during the step. -/

/-- The control points of Store.renewAuthToken:

* loopTop ttl — top of the outer for loop, about to test the sealed flag
  and then whether ttl is 0;
* sealedPoll ttl — inside the sealed wait loop, the 1-second timer is
  pending;
* authRetry — authentication failed, the retry timer is pending and the
  local ttl has been reset to 0;
* leaseWait renewArg sleepDur — inside the inner renewal loop, the timer
  with duration sleepDur is pending; on wake RenewSelf is called with
  renewArg. As in the code, renewArg stays at the value the outer ttl
  variable had when the inner loop was entered, because the inner
  declaration "ttl, err := secret.TokenTTL()" shadows it, while the timer
  reset uses the freshly returned TTL;
* stopped — the function returned after observing the cancellation
  signal. -/
inductive EngineState where
  | loopTop (ttl : Nat)
  | sealedPoll (ttl : Nat)
  | authRetry
  | leaseWait (renewArg : Nat) (sleepDur : Nat)
  | stopped
  deriving DecidableEq

/-- The actions the engine performs: the approle login write, installing
a token into the client (client.SetToken), the RenewSelf call with its
TTL argument in seconds, starting a timer, and returning on
cancellation. -/
inductive EngAction where
  | login
  | setToken (t : String)
  | renewSelf (arg : Nat)
  | sleep (d : Nat)
  | exit
  deriving DecidableEq

/-- One observation of the engine's environment: whether the context is
done, the current value of the shared sealed flag, and the responses the
backend would give to a login and to a RenewSelf issued now. A RenewSelf
response is none when the call errors or returns a nil secret, and
otherwise carries (renewable, new TTL) as extracted by
secret.TokenIsRenewable() and secret.TokenTTL() — extraction failures
surface as renewable = false resp. TTL = 0, which is how the client
library reports them alongside the error. -/
structure EngEnv where
  cancelled : Bool
  sealed : Bool
  loginResp : Except Nat (Option LoginSecret)
  renewResp : Option (Bool × Nat)
  deriving DecidableEq

/-- login.Retry defaulting: 5 seconds when unconfigured. -/
def effectiveRetry (r : Nat) : Nat := if r = 0 then 5 else r

/-- The inner renewal loop's decision on a RenewSelf response: none means
break (call errored or returned no secret, or the lease is not renewable,
or its new TTL is 0); some t means continue with new TTL t. -/
def renewOutcome : Option (Bool × Nat) → Option Nat
  | none => none
  | some (renewable, t) =>
    if renewable = false then none else if t = 0 then none else some t

/-- One step of Store.renewAuthToken from a control point to the next,
with the actions performed in between. retry is the effective retry
delay computed on entry. -/
def engineStep (retry : Nat) (env : EngEnv) : EngineState → EngineState × List EngAction
  | EngineState.stopped => (EngineState.stopped, [])
  | EngineState.loopTop ttl =>
    if env.sealed then
      (EngineState.sealedPoll ttl, [EngAction.sleep 1])
    else if ttl = 0 then
      match (authenticate env.loginResp).err with
      | some _ => (EngineState.authRetry, [EngAction.login, EngAction.sleep retry])
      | none =>
        (EngineState.leaseWait (authenticate env.loginResp).ttl
           ((authenticate env.loginResp).ttl / 2),
         [EngAction.login, EngAction.setToken (authenticate env.loginResp).token,
          EngAction.sleep ((authenticate env.loginResp).ttl / 2)])
    else
      (EngineState.leaseWait ttl (ttl / 2), [EngAction.sleep (ttl / 2)])
  | EngineState.sealedPoll ttl =>
    if env.cancelled then (EngineState.stopped, [EngAction.exit])
    else (EngineState.loopTop ttl, [])
  | EngineState.authRetry =>
    if env.cancelled then (EngineState.stopped, [EngAction.exit])
    else (EngineState.loopTop 0, [])
  | EngineState.leaseWait renewArg _ =>
    if env.cancelled then (EngineState.stopped, [EngAction.exit])
    else
      match renewOutcome env.renewResp with
      | none => (EngineState.loopTop 0, [EngAction.renewSelf renewArg])
      | some t =>
        (EngineState.leaseWait renewArg (t / 2),
         [EngAction.renewSelf renewArg, EngAction.sleep (t / 2)])

/-- Run the engine over a list of environment observations, collecting
the final state and the concatenated action trace. -/
def engineRun (retry : Nat) (st : EngineState) : List EngEnv → EngineState × List EngAction
  | [] => (st, [])
  | e :: rest =>
    let p := engineStep retry e st
    let q := engineRun retry p.1 rest
    (q.1, p.2 ++ q.2)

/-- True when no RenewSelf action occurs before the first login action in
the trace. -/
def noRenewBeforeLogin : List EngAction → Bool
  | [] => true
  | EngAction.login :: _ => true
  | EngAction.renewSelf _ :: _ => false
  | _ :: rest => noRenewBeforeLogin rest

/-! ## The availability monitor: Store.checkStatus -/

/-- StatusPingAfter defaulting: 10 seconds when unconfigured. -/
def effectiveDelay (d : Nat) : Nat := if d = 0 then 10 else d

/-- The session state shared between the background loops and the key
operations: the client token and the sealed flag. -/
structure Session where
  token : String
  sealed : Bool
  deriving DecidableEq

/-- One tick of Store.checkStatus: query health; on success overwrite the
sealed flag with the reported value, on error change nothing. -/
def checkStatusTick (st : Session) : Except Nat Bool → Session
  | Except.ok b => { st with sealed := b }
  | Except.error _ => st

/-- Run Store.checkStatus over a trace of (health response, context-done)
observations: each iteration first ticks, then waits on the timer where
cancellation is observed. Returns the final session and whether the loop
returned (it returns only on cancellation). -/
def checkStatusRun (st : Session) : List (Except Nat Bool × Bool) → Session × Bool
  | [] => (st, false)
  | (h, c) :: rest =>
    let st2 := checkStatusTick st h
    if c then (st2, true) else checkStatusRun st2 rest

/-! ## The entry point: Store.Authenticate -/

/-- The externally visible actions of Store.Authenticate: the initial
health query, the approle login, installing the token, and launching the
two background goroutines (the renewal engine with its initial TTL). -/
inductive AuthAct where
  | health
  | login
  | setToken (t : String)
  | spawnMonitor
  | spawnEngine (ttl : Nat)
  deriving DecidableEq

/-- The outcome of Store.Authenticate: the returned error (none is the
nil error), the resulting session state, and the actions performed. -/
structure AuthOut where
  res : Option Nat
  session : Session
  acts : List AuthAct
  deriving DecidableEq

/-- Store.Authenticate after the client has been constructed: query
health (propagating its error), record the sealed flag, log in and
install the token only when unsealed, then launch Store.checkStatus and
Store.renewAuthToken with the TTL obtained (which is still the zero
value when sealed), and return the nil error. -/
def storeAuthenticate (healthResp : Except Nat Bool)
    (loginResp : Except Nat (Option LoginSecret)) : AuthOut :=
  match healthResp with
  | Except.error e =>
    { res := some e, session := { token := "", sealed := false },
      acts := [AuthAct.health] }
  | Except.ok sealedB =>
    if sealedB then
      { res := none, session := { token := "", sealed := true },
        acts := [AuthAct.health, AuthAct.spawnMonitor, AuthAct.spawnEngine 0] }
    else
      match (authenticate loginResp).err with
      | some e =>
        { res := some e, session := { token := "", sealed := false },
          acts := [AuthAct.health, AuthAct.login] }
      | none =>
        { res := none,
          session := { token := (authenticate loginResp).token, sealed := false },
          acts := [AuthAct.health, AuthAct.login,
                   AuthAct.setToken (authenticate loginResp).token,
                   AuthAct.spawnMonitor,
                   AuthAct.spawnEngine (authenticate loginResp).ttl] }

/-! ## Concrete instances used by witnesses and counterexamples -/

/-- The states of the overall authentication phase: at the top of the
outer loop with a zero TTL, in the sealed wait loop with a zero TTL, or
stopped. From these states, no lease is held. -/
def authPhase : EngineState → Bool
  | EngineState.loopTop t => t == 0
  | EngineState.sealedPoll t => t == 0
  | EngineState.stopped => true
  | _ => false

/-- A connected, unsealed store at location "loc", used by concrete
witnesses. -/
def store0 : Store := { connected := true, sealed := false, location := "loc" }

/-- A connected but sealed store at location "loc", used by concrete
witnesses. -/
def store0sealed : Store := { connected := true, sealed := true, location := "loc" }

/-- A concrete environment observation whose renewal response reports a
non-renewable lease, with the cancellation signal unset. -/
def notRenewableEnv : EngEnv :=
  ⟨false, false, Except.ok none, some (false, 10)⟩

/-- A concrete environment observation with the sealed flag set and the
cancellation signal unset. -/
def sealedEnv : EngEnv := ⟨false, true, Except.ok none, some (true, 10)⟩

/-- A concrete environment observation whose login response is a
transport error, with the cancellation signal unset. -/
def authFailEnv : EngEnv := ⟨false, false, Except.error 7, none⟩

/-- A concrete environment observation whose login write returns no
error and no secret. -/
def emptySecretEnv : EngEnv := ⟨false, false, Except.ok none, none⟩

/-! ## Helper lemmas about the engine -/

theorem noRenew_nil : noRenewBeforeLogin [] = true := rfl

theorem noRenew_login (l : List EngAction) :
    noRenewBeforeLogin (EngAction.login :: l) = true := rfl

theorem noRenew_sleep (d : Nat) (l : List EngAction) :
    noRenewBeforeLogin (EngAction.sleep d :: l) = noRenewBeforeLogin l := rfl

theorem noRenew_exit (l : List EngAction) :
    noRenewBeforeLogin (EngAction.exit :: l) = noRenewBeforeLogin l := rfl

theorem noRenew_setToken (t : String) (l : List EngAction) :
    noRenewBeforeLogin (EngAction.setToken t :: l) = noRenewBeforeLogin l := rfl

/-- A step taken while the cancellation signal is not set never moves a
live engine into the stopped state. -/
theorem engineStep_live (retry : Nat) (env : EngEnv) (st : EngineState)
    (h : st ≠ EngineState.stopped) (hc : env.cancelled = false) :
    (engineStep retry env st).1 ≠ EngineState.stopped := by
  cases st with
  | stopped => exact absurd rfl h
  | loopTop ttl =>
    by_cases hs : env.sealed = true
    · simp [engineStep, hs]
    · by_cases ht : ttl = 0
      · subst ht
        cases hA : (authenticate env.loginResp).err <;> simp [engineStep, hs, hA]
      · simp [engineStep, hs, ht]
  | sealedPoll ttl => simp [engineStep, hc]
  | authRetry => simp [engineStep, hc]
  | leaseWait a b =>
    cases hr : renewOutcome env.renewResp <;> simp [engineStep, hc, hr]

/-- A run in which the cancellation signal never fires never reaches the
stopped state: the engine retries forever. -/
theorem engineRun_live (retry : Nat) :
    ∀ (envs : List EngEnv) (st : EngineState), st ≠ EngineState.stopped →
      (∀ e ∈ envs, e.cancelled = false) →
      (engineRun retry st envs).1 ≠ EngineState.stopped := by
  intro envs
  induction envs with
  | nil => intro st h _; simpa [engineRun] using h
  | cons e rest ih =>
    intro st h hc
    have he : e.cancelled = false := hc e (List.mem_cons_self e rest)
    have h1 := engineStep_live retry e st h he
    have h2 := ih (engineStep retry e st).1 h1 (fun x hx => hc x (List.mem_cons_of_mem e hx))
    simpa [engineRun] using h2

/-- Only a step observing the cancellation signal can stop a live
engine. -/
theorem engineStep_stopped_cancelled (retry : Nat) (env : EngEnv) (st : EngineState)
    (h : st ≠ EngineState.stopped)
    (hstop : (engineStep retry env st).1 = EngineState.stopped) :
    env.cancelled = true := by
  by_contra hc
  exact engineStep_live retry env st h (by simpa using hc) hstop

/-- Started anywhere in the authentication phase — in particular right
after a renewal failure, which lands at the top of the outer loop with a
zero TTL — the engine performs no RenewSelf call before its next login
call, over every environment trace. -/
theorem engineRun_noRenew (retry : Nat) :
    ∀ (envs : List EngEnv) (st : EngineState), authPhase st = true →
      noRenewBeforeLogin (engineRun retry st envs).2 = true := by
  intro envs
  induction envs with
  | nil => intro st _; simp [engineRun, noRenew_nil]
  | cons e rest ih =>
    intro st hst
    cases st with
    | loopTop t =>
      have ht : t = 0 := by simpa [authPhase] using hst
      subst ht
      by_cases hs : e.sealed = true
      · have h2 := ih (EngineState.sealedPoll 0) (by simp [authPhase])
        simpa [engineRun, engineStep, hs, noRenew_sleep] using h2
      · cases hA : (authenticate e.loginResp).err with
        | none => simp [engineRun, engineStep, hs, hA, noRenew_login]
        | some v => simp [engineRun, engineStep, hs, hA, noRenew_login]
    | sealedPoll t =>
      have ht : t = 0 := by simpa [authPhase] using hst
      subst ht
      by_cases hc : e.cancelled = true
      · have h2 := ih EngineState.stopped (by simp [authPhase])
        simpa [engineRun, engineStep, hc, noRenew_exit] using h2
      · have h2 := ih (EngineState.loopTop 0) (by simp [authPhase])
        simpa [engineRun, engineStep, hc] using h2
    | authRetry => simp [authPhase] at hst
    | leaseWait a b => simp [authPhase] at hst
    | stopped =>
      have h2 := ih EngineState.stopped (by simp [authPhase])
      simpa [engineRun, engineStep] using h2

/-! ## Claims about the key operations -/

/-- Claim C1: for every key k and value v, calling Create(k, v) twice in
sequence on a connected, unsealed store with a stable backend (no
injected failures at the derived path, key initially absent): Create
first reads the derived path; the second call fails with keyExists and
the backing value at the path remains the entry written by the first
call; and whenever the pre-write read errors, Create propagates that
error and performs no write. -/
theorem create_twice_keyExists (s : Store) (b : Backend) (k v : String)
    (hc : s.connected = true) (hs : s.sealed = false)
    (hre : lookupA b.readErrs (storePath s k) = none)
    (hwe : lookupA b.writeErrs (storePath s k) = none)
    (hab : lookupA b.entries (storePath s k) = none) :
    (Store.Create s b k v).res = Except.ok () ∧
    (Store.Create s b k v).calls.head? = some (BackendCall.readPath (storePath s k)) ∧
    (Store.Create s (Store.Create s b k v).backend k v).res = Except.error VErr.keyExists ∧
    (Store.Create s (Store.Create s b k v).backend k v).backend
      = (Store.Create s b k v).backend ∧
    lookupA (Store.Create s b k v).backend.entries (storePath s k)
      = some [(k, VVal.str v)] ∧
    (∀ (e : Nat) (b2 : Backend), lookupA b2.readErrs (storePath s k) = some e →
      (Store.Create s b2 k v).res = Except.error (VErr.transport e) ∧
      (Store.Create s b2 k v).backend = b2 ∧
      (Store.Create s b2 k v).calls = [BackendCall.readPath (storePath s k)]) := by
  have hcr : Store.Create s b k v =
      { res := Except.ok (),
        backend := { b with entries := (storePath s k, [(k, VVal.str v)]) :: b.entries },
        calls := [BackendCall.readPath (storePath s k),
                  BackendCall.writePath (storePath s k) [(k, VVal.str v)]],
        logs := [] } := by
    simp [Store.Create, Backend.read, Backend.write, hc, hs, hre, hwe, hab]
  have hcr2 : Store.Create s
      { b with entries := (storePath s k, [(k, VVal.str v)]) :: b.entries } k v =
      { res := Except.error VErr.keyExists,
        backend := { b with entries := (storePath s k, [(k, VVal.str v)]) :: b.entries },
        calls := [BackendCall.readPath (storePath s k)],
        logs := [] } := by
    simp [Store.Create, Backend.read, lookupA, hc, hs, hre]
  refine ⟨by rw [hcr], by rw [hcr]; rfl, by rw [hcr, hcr2], by rw [hcr, hcr2],
    by rw [hcr]; simp [lookupA], ?_⟩
  intro e b2 h
  simp [Store.Create, Backend.read, hc, hs, h]

theorem create_twice_keyExists_witness :
    lookupA emptyBackend.entries (storePath store0 "k") = none ∧
    (Store.Create store0 (Store.Create store0 emptyBackend "k" "v").backend "k" "v").res
      = Except.error VErr.keyExists :=
  ⟨by decide,
   (create_twice_keyExists store0 emptyBackend "k" "v" (by decide) (by decide)
      (by decide) (by decide) (by decide)).2.2.1⟩

/-- Claim C2: for every key and value, when the store is connected and
the sealed flag is set, each of Get, Create and Delete fails with the
sealedForbidden error, issues no backend call, and leaves the backend
unchanged. -/
theorem sealed_blocks_ops (s : Store) (b : Backend) (k v : String)
    (hc : s.connected = true) (hs : s.sealed = true) :
    (Store.Get s b k).res = Except.error VErr.sealedForbidden ∧
    (Store.Get s b k).calls = [] ∧ (Store.Get s b k).backend = b ∧
    (Store.Create s b k v).res = Except.error VErr.sealedForbidden ∧
    (Store.Create s b k v).calls = [] ∧ (Store.Create s b k v).backend = b ∧
    (Store.Delete s b k).res = Except.error VErr.sealedForbidden ∧
    (Store.Delete s b k).calls = [] ∧ (Store.Delete s b k).backend = b := by
  simp [Store.Get, Store.Create, Store.Delete, hc, hs]

theorem sealed_blocks_ops_witness :
    store0sealed.sealed = true ∧
    (Store.Get store0sealed emptyBackend "k").res = Except.error VErr.sealedForbidden ∧
    (Store.Get store0sealed emptyBackend "k").calls = [] :=
  ⟨by decide,
   (sealed_blocks_ops store0sealed emptyBackend "k" "v" (by decide) (by decide)).1,
   (sealed_blocks_ops store0sealed emptyBackend "k" "v" (by decide) (by decide)).2.1⟩

/-- Claim C3: for every key, Get on a connected, unsealed store yields
exactly one of the outcomes of the backend read: a transport error is
propagated as the same error code and logged with path context; no error
with an absent entry fails with keyNotFound; an entry present but
missing the key's field (or holding the nil value, or a non-string
value) fails with a malformed-entry error logged with path context; and
otherwise Get returns the entry's string value without logging. -/
theorem get_three_outcomes (s : Store) (b : Backend) (k : String)
    (hc : s.connected = true) (hs : s.sealed = false) :
    (∀ e : Nat, b.read (storePath s k) = Except.error e →
      (Store.Get s b k).res = Except.error (VErr.transport e) ∧
      (Store.Get s b k).logs
        = [LogEvent.withPath (storePath s k) "vault: failed to read: transport error"]) ∧
    (b.read (storePath s k) = Except.ok none →
      (Store.Get s b k).res = Except.error VErr.keyNotFound) ∧
    (∀ entry : Entry, b.read (storePath s k) = Except.ok (some entry) →
      (lookupA entry k = none →
        (Store.Get s b k).res = Except.error VErr.noValue ∧
        (Store.Get s b k).logs = [LogEvent.withPath (storePath s k)
          "vault: failed to read: entry exists but no secret key is present"]) ∧
      (lookupA entry k = some VVal.nullv →
        (Store.Get s b k).res = Except.error VErr.noValue ∧
        (Store.Get s b k).logs = [LogEvent.withPath (storePath s k)
          "vault: failed to read: entry exists but no secret key is present"]) ∧
      (lookupA entry k = some VVal.other →
        (Store.Get s b k).res = Except.error VErr.badFormat ∧
        (Store.Get s b k).logs = [LogEvent.withPath (storePath s k)
          "vault: failed to read: invalid K/V format"]) ∧
      (∀ w : String, lookupA entry k = some (VVal.str w) →
        (Store.Get s b k).res = Except.ok w ∧ (Store.Get s b k).logs = [])) := by
  refine ⟨?_, ?_, ?_⟩
  · intro e h
    simp [Store.Get, hc, hs, h]
  · intro h
    simp [Store.Get, hc, hs, h]
  · intro entry h
    refine ⟨?_, ?_, ?_, ?_⟩
    · intro hl; simp [Store.Get, hc, hs, h, hl]
    · intro hl; simp [Store.Get, hc, hs, h, hl]
    · intro hl; simp [Store.Get, hc, hs, h, hl]
    · intro w hl; simp [Store.Get, hc, hs, h, hl]

theorem get_three_outcomes_witness :
    emptyBackend.read (storePath store0 "k") = Except.ok none ∧
    (Store.Get store0 emptyBackend "k").res = Except.error VErr.keyNotFound :=
  ⟨by decide,
   (get_three_outcomes store0 emptyBackend "k" (by decide) (by decide)).2.1 (by decide)⟩

/-! ## Claims about the renewal engine and the monitor -/

/-- Claim C4: for every renewal attempt, each of the three failure
conditions — the renew call errors or returns no lease (response none),
the returned lease reports renewable = false, or the returned lease's
new TTL is zero — and exactly these, makes the renewal outcome a
failure; on failure the step falls back to the top of the loop with a
zero TTL (NeedsAuth), after which no RenewSelf occurs before the next
login over any environment trace; any other outcome returns to the
lease-wait state whose next wake is half the new TTL. -/
theorem renew_failure_needsAuth (retry renewArg d : Nat) (env : EngEnv)
    (hnc : env.cancelled = false) :
    (∀ r : Option (Bool × Nat),
      renewOutcome r = none ↔
        r = none ∨ (∃ t : Nat, r = some (false, t)) ∨ r = some (true, 0)) ∧
    (renewOutcome env.renewResp = none →
      engineStep retry env (EngineState.leaseWait renewArg d)
        = (EngineState.loopTop 0, [EngAction.renewSelf renewArg]) ∧
      ∀ envs : List EngEnv,
        noRenewBeforeLogin (engineRun retry (EngineState.loopTop 0) envs).2 = true) ∧
    (∀ t : Nat, renewOutcome env.renewResp = some t →
      engineStep retry env (EngineState.leaseWait renewArg d)
        = (EngineState.leaseWait renewArg (t / 2),
           [EngAction.renewSelf renewArg, EngAction.sleep (t / 2)])) := by
  refine ⟨?_, ?_, ?_⟩
  · intro r
    cases r with
    | none => simp [renewOutcome]
    | some p =>
      rcases p with ⟨rb, t⟩
      cases rb <;> by_cases ht : t = 0 <;> simp [renewOutcome, ht]
  · intro h
    exact ⟨by simp [engineStep, hnc, h],
      fun envs => engineRun_noRenew retry envs _ (by simp [authPhase])⟩
  · intro t h
    simp [engineStep, hnc, h]

theorem renew_failure_needsAuth_witness :
    renewOutcome notRenewableEnv.renewResp = none ∧
    engineStep 5 notRenewableEnv (EngineState.leaseWait 10 5)
      = (EngineState.loopTop 0, [EngAction.renewSelf 10]) :=
  ⟨by decide,
   ((renew_failure_needsAuth 5 10 5 notRenewableEnv (by decide)).2.1 (by decide)).1⟩

/-- Claim C5 counterexample: with the session reporting sealed, an
engine waiting on a lease still issues a RenewSelf call on wake — the
inner renewal loop does not consult the sealed flag, so the claim that
the engine issues no RenewSelf whenever sealed is reported fails. -/
theorem sealed_renew_counterexample :
    sealedEnv.sealed = true ∧
    engineStep 5 sealedEnv (EngineState.leaseWait 10 5)
      = (EngineState.leaseWait 10 5, [EngAction.renewSelf 10, EngAction.sleep 5]) := by
  decide

/-- Claim C5 (amended): the engine consults the sealed flag only at the
top of its outer loop: when sealed is observed there it suspends,
issuing no login, no RenewSelf and no token install, sleeping 1 second
and re-checking until unsealed, resuming with its TTL state intact;
while waiting on a lease the sealed flag is not consulted, so the wake
from the lease timer issues a RenewSelf even while sealed. -/
theorem sealed_pause_at_loopTop (retry ttl : Nat) (env : EngEnv)
    (hs : env.sealed = true) (hnc : env.cancelled = false) :
    engineStep retry env (EngineState.loopTop ttl)
      = (EngineState.sealedPoll ttl, [EngAction.sleep 1]) ∧
    engineStep retry env (EngineState.sealedPoll ttl) = (EngineState.loopTop ttl, []) ∧
    (∀ renewArg d : Nat,
      (engineStep retry env (EngineState.leaseWait renewArg d)).2.head?
        = some (EngAction.renewSelf renewArg)) := by
  refine ⟨by simp [engineStep, hs], by simp [engineStep, hnc], ?_⟩
  intro renewArg d
  cases hr : renewOutcome env.renewResp <;> simp [engineStep, hnc, hr]

theorem sealed_pause_at_loopTop_witness :
    sealedEnv.sealed = true ∧
    engineStep 5 sealedEnv (EngineState.loopTop 3)
      = (EngineState.sealedPoll 3, [EngAction.sleep 1]) :=
  ⟨rfl, (sealed_pause_at_loopTop 5 3 sealedEnv rfl rfl).1⟩

/-- Claim C6: in the NeedsAuth state (zero TTL at the top of the loop,
unsealed), a failed authentication keeps the engine in the retry cycle:
the step performs the login and starts the retry timer (the effective
retry delay defaulting to 5 seconds when unconfigured), the retry wake
returns to the top of the loop with a zero TTL, the loop never gives up
on its own — over any trace without a cancellation observation it never
reaches the stopped state — and a step can stop a live engine only when
the cancellation signal is observed. -/
theorem auth_retry_forever (retry : Nat) (env env2 : EngEnv)
    (hs : env.sealed = false)
    (hfail : (authenticate env.loginResp).err ≠ none)
    (hnc2 : env2.cancelled = false) :
    engineStep retry env (EngineState.loopTop 0)
      = (EngineState.authRetry, [EngAction.login, EngAction.sleep retry]) ∧
    engineStep retry env2 EngineState.authRetry = (EngineState.loopTop 0, []) ∧
    effectiveRetry 0 = 5 ∧
    (∀ envs : List EngEnv, (∀ e ∈ envs, e.cancelled = false) →
      (engineRun retry (EngineState.loopTop 0) envs).1 ≠ EngineState.stopped) ∧
    (∀ (env3 : EngEnv) (st : EngineState), st ≠ EngineState.stopped →
      (engineStep retry env3 st).1 = EngineState.stopped → env3.cancelled = true) := by
  refine ⟨?_, by simp [engineStep, hnc2], rfl, ?_, ?_⟩
  · rcases h : (authenticate env.loginResp).err with _ | e
    · exact absurd h hfail
    · simp [engineStep, hs, h]
  · intro envs h
    exact engineRun_live retry envs _ (by simp) h
  · intro env3 st h1 h2
    exact engineStep_stopped_cancelled retry env3 st h1 h2

theorem auth_retry_forever_witness :
    (authenticate authFailEnv.loginResp).err = some 7 ∧
    engineStep 5 authFailEnv (EngineState.loopTop 0)
      = (EngineState.authRetry, [EngAction.login, EngAction.sleep 5]) :=
  ⟨by decide,
   (auth_retry_forever 5 authFailEnv authFailEnv (by decide) (by decide) (by decide)).1⟩

/-- The availability monitor never touches the token field of the
session. -/
theorem checkStatusTick_token (st : Session) (h : Except Nat Bool) :
    (checkStatusTick st h).token = st.token := by
  cases h <;> rfl

/-- Over any trace of health observations, the monitor leaves the token
unchanged. -/
theorem checkStatusRun_token (tr : List (Except Nat Bool × Bool)) :
    ∀ st : Session, (checkStatusRun st tr).1.token = st.token := by
  induction tr with
  | nil => intro st; rfl
  | cons p rest ih =>
    intro st
    rcases p with ⟨h, c⟩
    cases c with
    | true => simp [checkStatusRun, checkStatusTick_token]
    | false =>
      simp only [checkStatusRun, Bool.false_eq_true, if_false]
      rw [ih]
      exact checkStatusTick_token st h

/-- The monitor loop returns only on a cancellation observation, never
on a health-check error. -/
theorem checkStatusRun_runs (tr : List (Except Nat Bool × Bool)) :
    ∀ st : Session, (∀ p ∈ tr, p.2 = false) → (checkStatusRun st tr).2 = false := by
  induction tr with
  | nil => intro st _; rfl
  | cons p rest ih =>
    intro st h
    rcases p with ⟨hh, c⟩
    have hc : c = false := h (hh, c) (List.mem_cons_self _ _)
    subst hc
    simp only [checkStatusRun, Bool.false_eq_true, if_false]
    exact ih _ (fun q hq => h q (List.mem_cons_of_mem _ hq))

/-- Claim C7: on every tick of Store.checkStatus (interval defaulting to
10 seconds when unconfigured), a successful health query overwrites the
sealed flag with the reported value and a failed query leaves the whole
session unchanged; across any run the token field is never modified —
the sealed flag is the monitor's only side effect — and the loop returns
only on a cancellation observation, never on an error. -/
theorem monitor_tick_sealed (st : Session) (tr : List (Except Nat Bool × Bool)) :
    (∀ b : Bool, checkStatusTick st (Except.ok b) = { st with sealed := b }) ∧
    (∀ e : Nat, checkStatusTick st (Except.error e) = st) ∧
    (checkStatusRun st tr).1.token = st.token ∧
    ((∀ p ∈ tr, p.2 = false) → (checkStatusRun st tr).2 = false) ∧
    effectiveDelay 0 = 10 :=
  ⟨fun _ => rfl, fun _ => rfl, checkStatusRun_token tr st,
   checkStatusRun_runs tr st, rfl⟩

theorem monitor_tick_sealed_witness :
    (checkStatusRun { token := "tok", sealed := false }
        [(Except.error 3, false)]).1.token = "tok" ∧
    effectiveDelay 0 = 10 :=
  ⟨(monitor_tick_sealed { token := "tok", sealed := false }
      [(Except.error 3, false)]).2.2.1,
   (monitor_tick_sealed { token := "tok", sealed := false }
      [(Except.error 3, false)]).2.2.2.2⟩

/-! ## Claims about error propagation and the entry point -/

/-- Claim C8 counterexample: on a connected, sealed store, Get surfaces
the sealedForbidden error to the caller without emitting any log event —
so the claim that every error surfaced by a key operation is logged with
path context before returning fails. -/
theorem error_logging_counterexample :
    (Store.Get store0sealed emptyBackend "k").res = Except.error VErr.sealedForbidden ∧
    (Store.Get store0sealed emptyBackend "k").logs = [] := by decide

/-- Claim C8 (amended): every error a key operation surfaces is returned
directly to the caller, but only transport errors and malformed-entry
errors are logged with path context before returning; the no-connection
error is logged without path context; and the sealedForbidden,
keyNotFound and keyExists errors are returned without any log event. -/
theorem error_logging_policy (s : Store) (b : Backend) (k v : String) :
    (s.connected = false →
      (Store.Get s b k).res = Except.error VErr.noConnection ∧
      (Store.Get s b k).logs = [LogEvent.plain "vault: no connection to vault server"] ∧
      (Store.Create s b k v).res = Except.error VErr.noConnection ∧
      (Store.Create s b k v).logs
        = [LogEvent.plain "vault: no connection to vault server"] ∧
      (Store.Delete s b k).res = Except.error VErr.noConnection ∧
      (Store.Delete s b k).logs
        = [LogEvent.plain "vault: no connection to vault server"]) ∧
    (s.connected = true → s.sealed = true →
      (Store.Get s b k).res = Except.error VErr.sealedForbidden ∧
      (Store.Get s b k).logs = [] ∧
      (Store.Create s b k v).logs = [] ∧
      (Store.Delete s b k).logs = []) ∧
    (s.connected = true → s.sealed = false →
      (b.read (storePath s k) = Except.ok none →
        (Store.Get s b k).res = Except.error VErr.keyNotFound ∧
        (Store.Get s b k).logs = []) ∧
      (∀ entry : Entry, b.read (storePath s k) = Except.ok (some entry) →
        (Store.Create s b k v).res = Except.error VErr.keyExists ∧
        (Store.Create s b k v).logs = []) ∧
      (∀ e : Nat, b.read (storePath s k) = Except.error e →
        (Store.Get s b k).res = Except.error (VErr.transport e) ∧
        (Store.Get s b k).logs
          = [LogEvent.withPath (storePath s k) "vault: failed to read: transport error"] ∧
        (Store.Create s b k v).res = Except.error (VErr.transport e) ∧
        (Store.Create s b k v).logs
          = [LogEvent.withPath (storePath s k)
              "vault: failed to create: transport error"]) ∧
      (∀ e : Nat, lookupA b.deleteErrs (storePath s k) = some e →
        (Store.Delete s b k).res = Except.error (VErr.transport e) ∧
        (Store.Delete s b k).logs
          = [LogEvent.withPath (storePath s k)
              "vault: failed to delete: transport error"]) ∧
      (∀ entry : Entry, b.read (storePath s k) = Except.ok (some entry) →
        lookupA entry k = none →
        (Store.Get s b k).res = Except.error VErr.noValue ∧
        (Store.Get s b k).logs = [LogEvent.withPath (storePath s k)
          "vault: failed to read: entry exists but no secret key is present"])) := by
  refine ⟨?_, ?_, ?_⟩
  · intro h
    simp [Store.Get, Store.Create, Store.Delete, h]
  · intro hc hs
    simp [Store.Get, Store.Create, Store.Delete, hc, hs]
  · intro hc hs
    refine ⟨?_, ?_, ?_, ?_, ?_⟩
    · intro h; simp [Store.Get, hc, hs, h]
    · intro entry h; simp [Store.Create, hc, hs, h]
    · intro e h; simp [Store.Get, Store.Create, hc, hs, h]
    · intro e h; simp [Store.Delete, Backend.delete, hc, hs, h]
    · intro entry h hl; simp [Store.Get, hc, hs, h, hl]

theorem error_logging_policy_witness :
    store0sealed.connected = true ∧ store0sealed.sealed = true ∧
    (Store.Get store0sealed emptyBackend "k").logs = [] :=
  ⟨rfl, rfl,
   ((error_logging_policy store0sealed emptyBackend "k" "v").2.1 rfl rfl).2.1⟩

/-- Claim C9: when the initial health check inside Store.Authenticate
succeeds and reports the backend as sealed, Authenticate performs no
login at all and still returns the nil error, leaves no token set, and
launches both background processes — the engine with a zero TTL, so
that from its start state a sealed observation sends it into the
1-second poll, and over any trace it issues no RenewSelf before its
first login. -/
theorem authenticate_sealed_start (lr : Except Nat (Option LoginSecret)) :
    (storeAuthenticate (Except.ok true) lr).res = none ∧
    (storeAuthenticate (Except.ok true) lr).session = { token := "", sealed := true } ∧
    (storeAuthenticate (Except.ok true) lr).acts
      = [AuthAct.health, AuthAct.spawnMonitor, AuthAct.spawnEngine 0] ∧
    AuthAct.login ∉ (storeAuthenticate (Except.ok true) lr).acts ∧
    (∀ env : EngEnv, env.sealed = true →
      engineStep (effectiveRetry 0) env (EngineState.loopTop 0)
        = (EngineState.sealedPoll 0, [EngAction.sleep 1])) ∧
    (∀ envs : List EngEnv,
      noRenewBeforeLogin
        (engineRun (effectiveRetry 0) (EngineState.loopTop 0) envs).2 = true) := by
  refine ⟨rfl, rfl, rfl, ?_, ?_, ?_⟩
  · simp [storeAuthenticate]
  · intro env hs
    simp [engineStep, hs]
  · intro envs
    exact engineRun_noRenew _ envs _ (by simp [authPhase])

theorem authenticate_sealed_start_witness :
    (storeAuthenticate (Except.ok true) (Except.error 7)).res = none ∧
    engineStep (effectiveRetry 0) sealedEnv (EngineState.loopTop 0)
      = (EngineState.sealedPoll 0, [EngAction.sleep 1]) :=
  ⟨(authenticate_sealed_start (Except.error 7)).1,
   (authenticate_sealed_start (Except.error 7)).2.2.2.2.1 sealedEnv rfl⟩

/-- Claim C10: when the login write returns neither an error nor a
secret, Store.authenticate returns the empty token, a zero TTL and a
nil error; the renewal engine treats this as a successful
authentication: its step performs the login, installs the empty token
into the client, and proceeds straight into the lease-wait loop (with a
zero timer, since the TTL is zero) instead of the failure retry
sleep. -/
theorem empty_login_secret_accepted (retry : Nat) (env : EngEnv)
    (hl : env.loginResp = Except.ok none) (hs : env.sealed = false) :
    authenticate (Except.ok none) = { token := "", ttl := 0, err := none } ∧
    engineStep retry env (EngineState.loopTop 0)
      = (EngineState.leaseWait 0 0,
         [EngAction.login, EngAction.setToken "", EngAction.sleep 0]) := by
  refine ⟨rfl, ?_⟩
  simp [engineStep, hs, hl, authenticate]

theorem empty_login_secret_accepted_witness :
    emptySecretEnv.loginResp = Except.ok none ∧
    engineStep 5 emptySecretEnv (EngineState.loopTop 0)
      = (EngineState.leaseWait 0 0,
         [EngAction.login, EngAction.setToken "", EngAction.sleep 0]) :=
  ⟨rfl, (empty_login_secret_accepted 5 emptySecretEnv rfl rfl).2⟩

end Vault
